import Mathlib

/-!
Verification of the MRP netting and lot-sizing engine of
`multi_warehouse_mrp_app.py` (multi-warehouse material-requirements
planning).  Quantities are embedded as rationals (the Python code works
on float columns coerced with `pd.to_numeric(...).fillna(0)`); the
integer planning parameters `lead_time`, `MOQ` and `pack_size` are
embedded as integers, matching the `int(...)` casts in the source.
Week-start dates are embedded as integers (day numbers); one week is
7 days, so `pd.Timedelta(weeks=w)` is `7 * w`.
-/

/-- One row of the Item Master table, after the numeric coercions of the
loader (`safety_stock`, `lead_time`, `MOQ`, `pack_size` through
`pd.to_numeric(...).fillna(0)` and the `int(...)` casts at lookup). -/
structure ItemParams where
  warehouse : String
  item_id : String
  description : String
  uom : String
  safety_stock : ℚ
  lead_time : ℤ
  MOQ : ℤ
  pack_size : ℤ
  deriving Repr, DecidableEq

/-- One row of the Inventory On Hand table. -/
structure Snapshot where
  warehouse : String
  item_id : String
  on_hand_qty : ℚ
  deriving Repr, DecidableEq

/-- One row of the Historical Weekly Issuance table. -/
structure Issue where
  warehouse : String
  item_id : String
  week_start : ℤ
  issued_qty : ℚ
  deriving Repr, DecidableEq

/-- One row of the Scheduled Receipts table. -/
structure Receipt where
  warehouse : String
  item_id : String
  week_start : ℤ
  qty : ℚ
  deriving Repr, DecidableEq

/-- One row of `debug_rows` as appended by the netting loop. -/
structure NettingRow where
  warehouse : String
  item : String
  description : String
  uom : String
  week : ℤ
  beg_soh : ℚ
  wkly_req : ℚ
  incoming : ℚ
  shortage : ℚ
  planned_order : ℤ
  end_soh : ℚ
  safety_stock : ℚ
  deriving Repr, DecidableEq

/-- One row of `planned_rows` (the Upcoming Planned Orders table). -/
structure PlannedOrder where
  warehouse : String
  item : String
  description : String
  uom : String
  planned_qty : ℤ
  receipt_week : ℤ
  release_week : ℤ
  deriving Repr, DecidableEq

/-- `incoming_qty`: sum of the `qty` column of the receipts rows matching
this warehouse, item and bucket (`receipts[(...==wh) & (...==item) &
(...==bucket)]["qty"].sum()`; the sum of an empty selection is 0, as in
the source's `if not incoming.empty else 0`). -/
def incomingQty (receipts : List Receipt) (wh item : String) (b : ℤ) : ℚ :=
  ((receipts.filter (fun r =>
    decide (r.warehouse = wh ∧ r.item_id = item ∧ r.week_start = b))).map
      (fun r => r.qty)).sum

/-- The lot-sizing computation of the netting loop: `planned_qty = 0`,
and when `shortage > 0`, `planned_qty = max(shortage, MOQ)` followed by
`planned_qty = int(np.ceil(planned_qty / pack_size) * pack_size)`. -/
def lotSize (shortage : ℚ) (MOQ pack : ℤ) : ℤ :=
  if 0 < shortage then ⌈max shortage (MOQ : ℚ) / (pack : ℚ)⌉ * pack else 0

/-- One iteration of the netting loop body for bucket `b` with running
balance `previous_s = prev`: `end_s = previous_s - wkly_req + incoming_qty`,
`shortage = max(safety_stock - end_s, 0)`, the lot-sized `planned_qty`
(0 outside the `if shortage > 0` branch, in which case `end_s += planned_qty`
adds 0, so the ending balance is `end_s + planned_qty` in every case),
and the appended `debug_rows` record. -/
def nettingStep (receipts : List Receipt) (wh item : String) (p : ItemParams)
    (req prev : ℚ) (b : ℤ) : NettingRow :=
  let inc := incomingQty receipts wh item b
  let endPre := prev - req + inc
  let short := max (p.safety_stock - endPre) 0
  let planned := lotSize short p.MOQ p.pack_size
  { warehouse := wh, item := item, description := p.description, uom := p.uom,
    week := b, beg_soh := prev, wkly_req := req, incoming := inc,
    shortage := short, planned_order := planned,
    end_soh := endPre + (planned : ℚ), safety_stock := p.safety_stock }

/-- The netting loop `for i, bucket in enumerate(time_buckets)` for one
(warehouse, item): a left-to-right walk of the bucket list threading the
running balance `previous_s = end_s`. -/
def nettingAux (receipts : List Receipt) (wh item : String) (p : ItemParams)
    (req : ℚ) : ℚ → List ℤ → List NettingRow
  | _, [] => []
  | prev, b :: rest =>
    nettingStep receipts wh item p req prev b ::
      nettingAux receipts wh item p req
        (nettingStep receipts wh item p req prev b).end_soh rest

/-- `wh_inventory.get(item, 0)`: the warehouse slice of the inventory table
is indexed by `item_id` and converted with `.to_dict()`, so a duplicated
item keeps the last matching row; a missing key yields 0. -/
def onHand (inv : List Snapshot) (wh item : String) : ℚ :=
  match (inv.filter (fun s =>
      decide (s.warehouse = wh ∧ s.item_id = item))).getLast? with
  | some s => s.on_hand_qty
  | none => 0

/-- `items_dict.get((wh, item), {})` followed by the per-field
`params.get(key, default)` lookups of the loop (defaults: safety_stock 0,
lead_time 1, MOQ 1, pack_size 1, uom and description empty).  The dict
has unique keys once the duplicate gate has passed, so the first matching
row is the only one. -/
def paramsFor (items : List ItemParams) (wh item : String) : ItemParams :=
  match items.find? (fun p =>
      decide (p.warehouse = wh ∧ p.item_id = item)) with
  | some p => p
  | none =>
    { warehouse := wh, item_id := item, description := "", uom := "",
      safety_stock := 0, lead_time := 1, MOQ := 1, pack_size := 1 }

/-- Stable insertion of an issuance row into a list already sorted by
`week_start`, placing the new row after every earlier-or-equal week. -/
def insertByWeek (x : Issue) : List Issue → List Issue
  | [] => [x]
  | y :: ys =>
    if y.week_start ≤ x.week_start then y :: insertByWeek x ys
    else x :: y :: ys

/-- `sort_values("week_start")`: a stable sort of the issuance rows by
week (rows are inserted left to right, each after its equals). -/
def sortByWeek (l : List Issue) : List Issue :=
  l.foldl (fun acc x => insertByWeek x acc) []

/-- The chronologically ordered issued quantities of one (warehouse, item):
`issuance[(...==wh) & (...==item)].sort_values("week_start")["issued_qty"]`. -/
def sortedIssuedFor (issuance : List Issue) (wh item : String) : List ℚ :=
  (sortByWeek (issuance.filter (fun i =>
    decide (i.warehouse = wh ∧ i.item_id = item)))).map (fun i => i.issued_qty)

/-- `avg_demand`: `.tail(4)` of the sorted history (the last four points,
fewer if the history is shorter), its mean if the selection is nonempty
else 0, then `max(avg_demand, 1)`. -/
def estDemand (hist : List ℚ) : ℚ :=
  max (if (hist.drop (hist.length - 4)).isEmpty then 0
       else (hist.drop (hist.length - 4)).sum /
         ((hist.drop (hist.length - 4)).length : ℚ)) 1

/-- `time_buckets`: 12 Monday-anchored weekly buckets starting at the
current week's Monday. -/
def weekBuckets (monday : ℤ) : List ℤ :=
  (List.range 12).map (fun w => monday + 7 * (w : ℤ))

/-- `inventory["warehouse"].unique()`: first occurrences, in order. -/
def dedupFirst (l : List String) : List String :=
  l.foldl (fun acc x => if x ∈ acc then acc else acc ++ [x]) []

/-- The netting phase: for each warehouse of the inventory table and each
Item Master row of that warehouse, run the per-item netting loop starting
from the on-hand balance, with the estimated weekly requirement and the
12-week horizon. -/
def runNetting (items : List ItemParams) (inv : List Snapshot)
    (issuance : List Issue) (receipts : List Receipt) (monday : ℤ) :
    List NettingRow :=
  (dedupFirst (inv.map (fun s => s.warehouse))).flatMap (fun wh =>
    ((items.filter (fun q => decide (q.warehouse = wh))).map
        (fun q => q.item_id)).flatMap (fun item =>
      nettingAux receipts wh item (paramsFor items wh item)
        (estDemand (sortedIssuedFor issuance wh item))
        (onHand inv wh item) (weekBuckets monday)))

/-- The Planned Orders table: one row per netting row with
`Planned_Order > 0`, with `receipt_week` the row's bucket and
`release_week = receipt_week - pd.Timedelta(weeks=lead_time)`. -/
def plannedOrders (items : List ItemParams) (rows : List NettingRow) :
    List PlannedOrder :=
  rows.filterMap (fun r =>
    if 0 < r.planned_order then
      some { warehouse := r.warehouse, item := r.item,
             description := (paramsFor items r.warehouse r.item).description,
             uom := r.uom, planned_qty := r.planned_order,
             receipt_week := r.week,
             release_week :=
               r.week - 7 * (paramsFor items r.warehouse r.item).lead_time }
    else none)

/-- Marks the Item Master rows flagged by
`items.duplicated(subset=["warehouse","item_id"], keep=False)`: every row
whose (warehouse, item_id) key occurs at least twice. -/
def isDupKey (items : List ItemParams) (p : ItemParams) : Bool :=
  2 ≤ items.countP (fun q =>
    decide (q.warehouse = p.warehouse ∧ q.item_id = p.item_id))

/-- The run from the duplicate-key gate onward: when duplicates exist the
offending rows are displayed and `st.stop()` aborts before the netting
loop; otherwise netting runs and the planned orders are derived. -/
def mrpRun (items : List ItemParams) (inv : List Snapshot)
    (issuance : List Issue) (receipts : List Receipt) (monday : ℤ) :
    Except (List ItemParams) (List NettingRow × List PlannedOrder) :=
  if (items.filter (isDupKey items)).isEmpty then
    Except.ok (runNetting items inv issuance receipts monday,
      plannedOrders items (runNetting items inv issuance receipts monday))
  else
    Except.error (items.filter (isDupKey items))

/-- Concrete Item Master row of the worked example of the specification:
safety stock 20, lead time 2, MOQ 15, pack size 10. -/
def demoParams : ItemParams :=
  { warehouse := "W1", item_id := "X", description := "demo", uom := "ea",
    safety_stock := 20, lead_time := 2, MOQ := 15, pack_size := 10 }

/-- Concrete starting balance of 10 for the worked example. -/
def demoSnap : Snapshot := { warehouse := "W1", item_id := "X", on_hand_qty := 10 }

/-- First netting row of the worked example (weekly requirement 5): the
pre-order balance 5 is short of safety stock by 15, lot-sized to 20. -/
def demoRow0 : NettingRow :=
  { warehouse := "W1", item := "X", description := "demo", uom := "ea",
    week := 0, beg_soh := 10, wkly_req := 5, incoming := 0, shortage := 15,
    planned_order := 20, end_soh := 25, safety_stock := 20 }

/-- Second netting row of the worked example: no shortage, no order. -/
def demoRow1 : NettingRow :=
  { warehouse := "W1", item := "X", description := "demo", uom := "ea",
    week := 7, beg_soh := 25, wkly_req := 5, incoming := 0, shortage := 0,
    planned_order := 0, end_soh := 20, safety_stock := 20 }

/-- Concrete issuance history point (3 units, two weeks back). -/
def demoIss0 : Issue :=
  { warehouse := "W1", item_id := "X", week_start := -14, issued_qty := 3 }

/-- Concrete issuance history point (5 units, one week back). -/
def demoIss1 : Issue :=
  { warehouse := "W1", item_id := "X", week_start := -7, issued_qty := 5 }

/-- First row of the full run on the demo item with history [3, 5]:
the weekly requirement is the average 4. -/
def demoRunRow0 : NettingRow :=
  { warehouse := "W1", item := "X", description := "demo", uom := "ea",
    week := 0, beg_soh := 10, wkly_req := 4, incoming := 0, shortage := 14,
    planned_order := 20, end_soh := 26, safety_stock := 20 }

/-- The planned order derived from `demoRow0`: received week 0, released
2 weeks (14 days) earlier — before the horizon start. -/
def demoOrder : PlannedOrder :=
  { warehouse := "W1", item := "X", description := "demo", uom := "ea",
    planned_qty := 20, receipt_week := 0, release_week := -14 }

/-- An Item Master row whose (warehouse, item_id) key is duplicated. -/
def dupRowA : ItemParams :=
  { warehouse := "W1", item_id := "X", description := "first", uom := "ea",
    safety_stock := 20, lead_time := 2, MOQ := 15, pack_size := 10 }

/-- A second Item Master row with the same key as `dupRowA` but different
planning parameters. -/
def dupRowB : ItemParams :=
  { warehouse := "W1", item_id := "X", description := "second", uom := "ea",
    safety_stock := 5, lead_time := 1, MOQ := 1, pack_size := 1 }

/-- An Item Master row carrying a negative pack size, as produced when the
loader's `fillna`/`int` coercions pass a bad `pack_size` value through. -/
def badItem : ItemParams :=
  { warehouse := "W2", item_id := "B", description := "", uom := "",
    safety_stock := 10, lead_time := 1, MOQ := 0, pack_size := -2 }

/-- Starting balance 0 for the bad-pack-size item. -/
def badSnap : Snapshot := { warehouse := "W2", item_id := "B", on_hand_qty := 0 }

/-- An item whose negative safety stock never triggers an order, so its
projected balance sinks by the weekly requirement each week. -/
def sinkItem : ItemParams :=
  { warehouse := "W3", item_id := "C", description := "", uom := "",
    safety_stock := -1000, lead_time := 1, MOQ := 0, pack_size := 1 }

/-- Starting balance 0 for the sinking item. -/
def sinkSnap : Snapshot := { warehouse := "W3", item_id := "C", on_hand_qty := 0 }

@[simp] theorem nettingStep_warehouse (receipts : List Receipt) (wh item : String)
    (p : ItemParams) (req prev : ℚ) (b : ℤ) :
    (nettingStep receipts wh item p req prev b).warehouse = wh := rfl

@[simp] theorem nettingStep_item (receipts : List Receipt) (wh item : String)
    (p : ItemParams) (req prev : ℚ) (b : ℤ) :
    (nettingStep receipts wh item p req prev b).item = item := rfl

@[simp] theorem nettingStep_week (receipts : List Receipt) (wh item : String)
    (p : ItemParams) (req prev : ℚ) (b : ℤ) :
    (nettingStep receipts wh item p req prev b).week = b := rfl

@[simp] theorem nettingStep_beg_soh (receipts : List Receipt) (wh item : String)
    (p : ItemParams) (req prev : ℚ) (b : ℤ) :
    (nettingStep receipts wh item p req prev b).beg_soh = prev := rfl

@[simp] theorem nettingStep_wkly_req (receipts : List Receipt) (wh item : String)
    (p : ItemParams) (req prev : ℚ) (b : ℤ) :
    (nettingStep receipts wh item p req prev b).wkly_req = req := rfl

@[simp] theorem nettingStep_incoming (receipts : List Receipt) (wh item : String)
    (p : ItemParams) (req prev : ℚ) (b : ℤ) :
    (nettingStep receipts wh item p req prev b).incoming =
      incomingQty receipts wh item b := rfl

@[simp] theorem nettingStep_safety_stock (receipts : List Receipt) (wh item : String)
    (p : ItemParams) (req prev : ℚ) (b : ℤ) :
    (nettingStep receipts wh item p req prev b).safety_stock = p.safety_stock := rfl

@[simp] theorem nettingStep_shortage (receipts : List Receipt) (wh item : String)
    (p : ItemParams) (req prev : ℚ) (b : ℤ) :
    (nettingStep receipts wh item p req prev b).shortage =
      max (p.safety_stock - (prev - req + incomingQty receipts wh item b)) 0 := rfl

@[simp] theorem nettingStep_planned_order (receipts : List Receipt) (wh item : String)
    (p : ItemParams) (req prev : ℚ) (b : ℤ) :
    (nettingStep receipts wh item p req prev b).planned_order =
      lotSize (max (p.safety_stock - (prev - req + incomingQty receipts wh item b)) 0)
        p.MOQ p.pack_size := rfl

@[simp] theorem nettingStep_end_soh (receipts : List Receipt) (wh item : String)
    (p : ItemParams) (req prev : ℚ) (b : ℤ) :
    (nettingStep receipts wh item p req prev b).end_soh =
      prev - req + incomingQty receipts wh item b +
        ((nettingStep receipts wh item p req prev b).planned_order : ℚ) := rfl

theorem nettingAux_mem (receipts : List Receipt) (wh item : String) (p : ItemParams)
    (req : ℚ) :
    ∀ (bs : List ℤ) (prev : ℚ) (r : NettingRow),
      r ∈ nettingAux receipts wh item p req prev bs →
      r.warehouse = wh ∧ r.item = item ∧ r.wkly_req = req ∧
      r.safety_stock = p.safety_stock ∧
      r.incoming = incomingQty receipts wh item r.week ∧
      r.shortage = max (p.safety_stock - (r.beg_soh - req + r.incoming)) 0 ∧
      r.planned_order = lotSize r.shortage p.MOQ p.pack_size ∧
      r.end_soh = r.beg_soh - req + r.incoming + (r.planned_order : ℚ) := by
  intro bs
  induction bs with
  | nil => intro prev r hr; simp [nettingAux] at hr
  | cons b rest ih =>
    intro prev r hr
    rw [nettingAux, List.mem_cons] at hr
    rcases hr with h | h
    · subst h
      refine ⟨rfl, rfl, rfl, rfl, ?_, ?_, ?_, ?_⟩ <;> simp
    · exact ih _ r h

theorem lotSize_of_pos {shortage : ℚ} (MOQ pack : ℤ) (h : 0 < shortage) :
    lotSize shortage MOQ pack = ⌈max shortage (MOQ : ℚ) / (pack : ℚ)⌉ * pack := by
  simp [lotSize, h]

theorem lotSize_of_nonpos {shortage : ℚ} (MOQ pack : ℤ) (h : ¬ 0 < shortage) :
    lotSize shortage MOQ pack = 0 := by
  simp [lotSize, h]

theorem le_lotSize {shortage : ℚ} (MOQ pack : ℤ) (h : 0 < shortage) (hp : 1 ≤ pack) :
    max shortage (MOQ : ℚ) ≤ (lotSize shortage MOQ pack : ℚ) := by
  rw [lotSize_of_pos MOQ pack h]
  have hp0 : (0 : ℚ) < (pack : ℚ) := by exact_mod_cast lt_of_lt_of_le Int.zero_lt_one hp
  push_cast
  calc max shortage (MOQ : ℚ)
      = max shortage (MOQ : ℚ) / (pack : ℚ) * (pack : ℚ) :=
        (div_mul_cancel₀ _ (ne_of_gt hp0)).symm
    _ ≤ (⌈max shortage (MOQ : ℚ) / (pack : ℚ)⌉ : ℚ) * (pack : ℚ) :=
        mul_le_mul_of_nonneg_right (Int.le_ceil _) (le_of_lt hp0)

theorem one_le_lotSize_ceil {shortage : ℚ} (MOQ pack : ℤ) (h : 0 < shortage)
    (hp : 1 ≤ pack) : 1 ≤ ⌈max shortage (MOQ : ℚ) / (pack : ℚ)⌉ := by
  have hp0 : (0 : ℚ) < (pack : ℚ) := by exact_mod_cast lt_of_lt_of_le Int.zero_lt_one hp
  have : 0 < ⌈max shortage (MOQ : ℚ) / (pack : ℚ)⌉ :=
    Int.ceil_pos.mpr (div_pos (lt_max_iff.mpr (Or.inl h)) hp0)
  omega

theorem lotSize_pos {shortage : ℚ} {MOQ pack : ℤ} (h : 0 < shortage) (hp : 1 ≤ pack) :
    0 < lotSize shortage MOQ pack := by
  rw [lotSize_of_pos MOQ pack h]
  have h1 := one_le_lotSize_ceil MOQ pack h hp
  nlinarith

theorem nettingAux_first (receipts : List Receipt) (wh item : String) (p : ItemParams)
    (req : ℚ) :
    ∀ (bs : List ℤ) (prev : ℚ) (r : NettingRow),
      (nettingAux receipts wh item p req prev bs)[0]? = some r → r.beg_soh = prev := by
  intro bs prev r h
  cases bs with
  | nil => simp [nettingAux] at h
  | cons b rest =>
    rw [nettingAux, List.getElem?_cons_zero, Option.some.injEq] at h
    rw [← h]
    simp

theorem nettingAux_consec (receipts : List Receipt) (wh item : String) (p : ItemParams)
    (req : ℚ) :
    ∀ (bs : List ℤ) (prev : ℚ) (i : ℕ) (r r2 : NettingRow),
      (nettingAux receipts wh item p req prev bs)[i]? = some r →
      (nettingAux receipts wh item p req prev bs)[i + 1]? = some r2 →
      r2.beg_soh = r.end_soh := by
  intro bs
  induction bs with
  | nil => intro prev i r r2 h1 h2; simp [nettingAux] at h1
  | cons b rest ih =>
    intro prev i r r2 h1 h2
    rw [nettingAux] at h1 h2
    cases i with
    | zero =>
      rw [List.getElem?_cons_zero, Option.some.injEq] at h1
      rw [List.getElem?_cons_succ] at h2
      rw [← h1]
      exact nettingAux_first receipts wh item p req rest _ r2 h2
    | succ j =>
      rw [List.getElem?_cons_succ] at h1 h2
      exact ih _ j r r2 h1 h2

/-- Claim C1: every row of the netting loop satisfies
`end_soh = beg_soh - wkly_req + incoming + planned_order_qty`. -/
theorem claim_C1_recurrence_identity (receipts : List Receipt) (wh item : String)
    (p : ItemParams) (req prev : ℚ) (bs : List ℤ) :
    ∀ r ∈ nettingAux receipts wh item p req prev bs,
      r.end_soh = r.beg_soh - r.wkly_req + r.incoming + (r.planned_order : ℚ) := by
  intro r hr
  obtain ⟨-, -, hreq, -, -, -, -, hend⟩ :=
    nettingAux_mem receipts wh item p req bs prev r hr
  rw [hreq]
  exact hend

theorem claim_C1_witness :
    demoRow0.end_soh =
      demoRow0.beg_soh - demoRow0.wkly_req + demoRow0.incoming +
        (demoRow0.planned_order : ℚ) :=
  claim_C1_recurrence_identity [] "W1" "X" demoParams 5 10 [0, 7] demoRow0
    (by with_unfolding_all decide)

/-- Claim C2: consecutive rows of one item's netting are chained by
`beg_soh(t+1) = end_soh(t)`; the first row starts at the on-hand balance,
which is 0 when no inventory snapshot matches the key. -/
theorem claim_C2_carry_forward (receipts : List Receipt) (inv : List Snapshot)
    (wh item : String) (p : ItemParams) (req : ℚ) (bs : List ℤ) :
    (∀ r : NettingRow,
        (nettingAux receipts wh item p req (onHand inv wh item) bs)[0]? = some r →
        r.beg_soh = onHand inv wh item) ∧
    (∀ (i : ℕ) (r r2 : NettingRow),
        (nettingAux receipts wh item p req (onHand inv wh item) bs)[i]? = some r →
        (nettingAux receipts wh item p req (onHand inv wh item) bs)[i + 1]? = some r2 →
        r2.beg_soh = r.end_soh) ∧
    (inv.filter (fun s => decide (s.warehouse = wh ∧ s.item_id = item)) = [] →
        onHand inv wh item = 0) := by
  refine ⟨?_, ?_, ?_⟩
  · intro r h
    exact nettingAux_first receipts wh item p req bs _ r h
  · intro i r r2 h1 h2
    exact nettingAux_consec receipts wh item p req bs _ i r r2 h1 h2
  · intro h
    unfold onHand
    rw [h]
    rfl

theorem claim_C2_witness : demoRow1.beg_soh = demoRow0.end_soh :=
  (claim_C2_carry_forward [] [demoSnap] "W1" "X" demoParams 5 [0, 7]).2.1 0
    demoRow0 demoRow1 (by with_unfolding_all rfl) (by with_unfolding_all rfl)

/-- Claim C3: a strictly positive planned order is triggered exactly when
the pre-order ending balance `beg_soh - wkly_req + incoming` is below
safety stock (so an incoming receipt can cancel a shortage without an
order); `1 ≤ pack_size` is the Item Master input contract `pack_size > 0`. -/
theorem claim_C3_order_trigger (receipts : List Receipt) (wh item : String)
    (p : ItemParams) (req prev : ℚ) (bs : List ℤ) (hpack : 1 ≤ p.pack_size) :
    ∀ r ∈ nettingAux receipts wh item p req prev bs,
      (0 < r.planned_order ↔
        r.beg_soh - r.wkly_req + r.incoming < r.safety_stock) := by
  intro r hr
  obtain ⟨-, -, hreq, hss, -, hshort, hplan, -⟩ :=
    nettingAux_mem receipts wh item p req bs prev r hr
  rw [hreq, hss]
  constructor
  · intro hpos
    by_contra hge
    push_neg at hge
    have h0 : r.shortage = 0 := by
      rw [hshort]
      exact max_eq_right (by linarith)
    rw [hplan, h0, lotSize_of_nonpos p.MOQ p.pack_size (lt_irrefl 0)] at hpos
    exact lt_irrefl 0 hpos
  · intro hlt
    have h0 : 0 < r.shortage := by
      rw [hshort]
      exact lt_max_iff.mpr (Or.inl (by linarith))
    rw [hplan]
    exact lotSize_pos h0 hpack

theorem claim_C3_witness :
    0 < demoRow0.planned_order ↔
      demoRow0.beg_soh - demoRow0.wkly_req + demoRow0.incoming <
        demoRow0.safety_stock :=
  claim_C3_order_trigger [] "W1" "X" demoParams 5 10 [0, 7]
    (by with_unfolding_all decide) demoRow0 (by with_unfolding_all decide)

/-- Claim C4: a positive planned order equals
`ceil(max(shortage, MOQ) / pack_size) * pack_size`, hence is at least the
MOQ, at least the shortage, and a positive integer multiple of pack_size,
under the precondition `pack_size > 0`. -/
theorem claim_C4_lot_sizing (receipts : List Receipt) (wh item : String)
    (p : ItemParams) (req prev : ℚ) (bs : List ℤ) (hpack : 1 ≤ p.pack_size) :
    ∀ r ∈ nettingAux receipts wh item p req prev bs, 0 < r.planned_order →
      r.planned_order =
        ⌈max r.shortage (p.MOQ : ℚ) / (p.pack_size : ℚ)⌉ * p.pack_size ∧
      p.MOQ ≤ r.planned_order ∧
      r.shortage ≤ (r.planned_order : ℚ) ∧
      ∃ k : ℤ, 1 ≤ k ∧ r.planned_order = k * p.pack_size := by
  intro r hr hpos
  obtain ⟨-, -, -, -, -, -, hplan, -⟩ :=
    nettingAux_mem receipts wh item p req bs prev r hr
  have hshortpos : 0 < r.shortage := by
    by_contra h
    rw [hplan, lotSize_of_nonpos p.MOQ p.pack_size h] at hpos
    exact lt_irrefl 0 hpos
  refine ⟨?_, ?_, ?_, ?_⟩
  · rw [hplan, lotSize_of_pos p.MOQ p.pack_size hshortpos]
  · have := le_lotSize p.MOQ p.pack_size hshortpos hpack
    rw [← hplan] at this
    exact_mod_cast le_trans (le_max_right r.shortage (p.MOQ : ℚ)) this
  · have := le_lotSize p.MOQ p.pack_size hshortpos hpack
    rw [← hplan] at this
    exact le_trans (le_max_left r.shortage (p.MOQ : ℚ)) this
  · refine ⟨⌈max r.shortage (p.MOQ : ℚ) / (p.pack_size : ℚ)⌉,
      one_le_lotSize_ceil p.MOQ p.pack_size hshortpos hpack, ?_⟩
    rw [hplan, lotSize_of_pos p.MOQ p.pack_size hshortpos]

theorem claim_C4_witness :
    demoRow0.planned_order =
      ⌈max demoRow0.shortage (demoParams.MOQ : ℚ) / (demoParams.pack_size : ℚ)⌉ *
        demoParams.pack_size ∧
    demoParams.MOQ ≤ demoRow0.planned_order ∧
    demoRow0.shortage ≤ (demoRow0.planned_order : ℚ) ∧
    ∃ k : ℤ, 1 ≤ k ∧ demoRow0.planned_order = k * demoParams.pack_size :=
  claim_C4_lot_sizing [] "W1" "X" demoParams 5 10 [0, 7]
    (by with_unfolding_all decide) demoRow0 (by with_unfolding_all decide)
    (by with_unfolding_all decide)

/-- Claim C5: the estimated weekly requirement is `max(avg of last 4
issued, 1)`: it is always at least 1 and never nonpositive, the empty
history yields 1, and every netting row of a run uses exactly this
estimate of its own (warehouse, item) chronological history as `wkly_req`. -/
theorem claim_C5_demand_floor :
    (∀ hist : List ℚ, 1 ≤ estDemand hist ∧ ¬ estDemand hist ≤ 0) ∧
    estDemand [] = 1 ∧
    (∀ (items : List ItemParams) (inv : List Snapshot) (issuance : List Issue)
        (receipts : List Receipt) (monday : ℤ) (r : NettingRow),
        r ∈ runNetting items inv issuance receipts monday →
        r.wkly_req = estDemand (sortedIssuedFor issuance r.warehouse r.item) ∧
        1 ≤ r.wkly_req) := by
  refine ⟨?_, ?_, ?_⟩
  · intro hist
    constructor
    · exact le_max_right _ _
    · intro h
      have h1 : (1 : ℚ) ≤ estDemand hist := le_max_right _ _
      linarith
  · with_unfolding_all rfl
  · intro items inv issuance receipts monday r hr
    simp only [runNetting, List.mem_flatMap, List.mem_map, List.mem_filter] at hr
    obtain ⟨wh, -, item0, -, hmem⟩ := hr
    obtain ⟨hwh, hitem, hreq, -, -, -, -, -⟩ :=
      nettingAux_mem receipts wh item0 (paramsFor items wh item0)
        (estDemand (sortedIssuedFor issuance wh item0)) (weekBuckets monday)
        (onHand inv wh item0) r hmem
    rw [hwh, hitem]
    exact ⟨hreq, by rw [hreq]; exact le_max_right _ _⟩

theorem claim_C5_witness :
    demoRunRow0.wkly_req =
      estDemand (sortedIssuedFor [demoIss0, demoIss1] demoRunRow0.warehouse
        demoRunRow0.item) ∧
    1 ≤ demoRunRow0.wkly_req :=
  claim_C5_demand_floor.2.2 [demoParams] [demoSnap] [demoIss0, demoIss1] [] 0
    demoRunRow0 (by with_unfolding_all decide)

/-- Claim C6: the planned-orders table has exactly one order per netting
row with a positive planned quantity, with `receipt_week` the row's bucket
and `release_week = receipt_week - 7 * lead_time` days; release weeks in
the past are neither clamped nor filtered out. -/
theorem claim_C6_release_offset (items : List ItemParams) (rows : List NettingRow) :
    List.Forall₂ (fun r o =>
        o.receipt_week = r.week ∧
        o.release_week = r.week - 7 * (paramsFor items r.warehouse r.item).lead_time ∧
        o.planned_qty = r.planned_order ∧
        o.warehouse = r.warehouse ∧ o.item = r.item)
      (rows.filter (fun r => decide (0 < r.planned_order)))
      (plannedOrders items rows) ∧
    (∀ o ∈ plannedOrders items rows,
      o.release_week =
        o.receipt_week - 7 * (paramsFor items o.warehouse o.item).lead_time) := by
  constructor
  · induction rows with
    | nil => simp [plannedOrders]
    | cons r rest ih =>
      by_cases h : 0 < r.planned_order
      · simp only [plannedOrders, List.filterMap_cons, List.filter_cons, h,
          decide_eq_true_eq]
        exact List.Forall₂.cons ⟨rfl, rfl, rfl, rfl, rfl⟩ ih
      · simp only [plannedOrders, List.filterMap_cons, List.filter_cons, h,
          decide_eq_true_eq]
        exact ih
  · intro o ho
    simp only [plannedOrders, List.mem_filterMap] at ho
    obtain ⟨r, -, hro⟩ := ho
    by_cases h : 0 < r.planned_order
    · rw [if_pos h, Option.some.injEq] at hro
      rw [← hro]
    · rw [if_neg h] at hro
      exact absurd hro (by simp)

theorem claim_C6_witness :
    demoOrder.release_week =
      demoOrder.receipt_week -
        7 * (paramsFor [demoParams] demoOrder.warehouse demoOrder.item).lead_time :=
  (claim_C6_release_offset [demoParams] [demoRow0]).2 demoOrder
    (by with_unfolding_all decide)

/-- Claim C7 evidence: an item with `pack_size = -2` is neither rejected by
any validation nor given the `pack_size = 1` fallback: the run proceeds
into netting and the lot sizing divides by the non-positive pack size,
rounding the order quantity down to 10, below the shortage of 11 (a pack
size of 1 would have ordered 11), leaving the ending balance 9 below the
safety stock 10. -/
theorem claim_C7_no_pack_size_guard :
    lotSize 11 0 (-2) = 10 ∧
    lotSize 11 0 1 = 11 ∧
    mrpRun [badItem] [badSnap] [] [] 0 =
      Except.ok (runNetting [badItem] [badSnap] [] [] 0,
        plannedOrders [badItem] (runNetting [badItem] [badSnap] [] [] 0)) ∧
    ((runNetting [badItem] [badSnap] [] [] 0).map
        (fun r => (r.shortage, (r.planned_order : ℚ), r.end_soh, r.safety_stock)))[0]? =
      some (11, 10, 9, 10) := by
  refine ⟨by with_unfolding_all decide, by with_unfolding_all decide, ?_, ?_⟩
  · with_unfolding_all rfl
  · with_unfolding_all rfl

/-- Claim C8: the engine applies no negative-clamping: on an input whose
weekly requirement (1, the demand floor) persistently exceeds supply (no
receipts, no orders triggered), the twelve projected ending balances are
-1, ..., -12 — negative throughout and reported unmodified, each equal to
`beg_soh - wkly_req + incoming + planned_order_qty`. -/
theorem claim_C8_negative_balances_unclamped :
    ((runNetting [sinkItem] [sinkSnap] [] [] 0).map (fun r => r.end_soh)) =
      [-1, -2, -3, -4, -5, -6, -7, -8, -9, -10, -11, -12] ∧
    ((runNetting [sinkItem] [sinkSnap] [] [] 0).all (fun r =>
      decide (r.end_soh < 0) &&
      decide (r.end_soh = r.beg_soh - r.wkly_req + r.incoming + (r.planned_order : ℚ)) &&
      decide (r.incoming + (r.planned_order : ℚ) < r.wkly_req))) = true := by
  exact ⟨by with_unfolding_all rfl, by with_unfolding_all rfl⟩

/-- Claim C9: when the Item Master has two rows for one (warehouse,
item_id) key, the run stops at the duplicate gate: the result is the error
carrying exactly the offending rows, and no netting output is ever
produced. -/
theorem claim_C9_duplicate_abort (items : List ItemParams) (inv : List Snapshot)
    (issuance : List Issue) (receipts : List Receipt) (monday : ℤ)
    (hdup : items.filter (isDupKey items) ≠ []) :
    mrpRun items inv issuance receipts monday =
      Except.error (items.filter (isDupKey items)) ∧
    ∀ out, mrpRun items inv issuance receipts monday ≠ Except.ok out := by
  have hne : (items.filter (isDupKey items)).isEmpty = false := by
    simpa [List.isEmpty_iff] using hdup
  constructor
  · simp [mrpRun, hne]
  · intro out
    simp [mrpRun, hne]

theorem claim_C9_witness :
    mrpRun [dupRowA, dupRowB] [] [] [] 0 =
      Except.error ([dupRowA, dupRowB].filter (isDupKey [dupRowA, dupRowB])) :=
  (claim_C9_duplicate_abort [dupRowA, dupRowB] [] [] [] 0
    (by with_unfolding_all decide)).1

/-- Claim C10: with `safety_stock ≥ 0` and `pack_size ≥ 1`, every netting
row ends at or above safety stock (hence never negative), because a
lot-sized order always covers at least the shortage. -/
theorem claim_C10_end_soh_above_safety (receipts : List Receipt) (wh item : String)
    (p : ItemParams) (req prev : ℚ) (bs : List ℤ)
    (hss : 0 ≤ p.safety_stock) (hpack : 1 ≤ p.pack_size) :
    ∀ r ∈ nettingAux receipts wh item p req prev bs,
      r.safety_stock ≤ r.end_soh ∧ 0 ≤ r.end_soh := by
  intro r hr
  obtain ⟨-, -, -, hssr, -, hshort, hplan, hend⟩ :=
    nettingAux_mem receipts wh item p req bs prev r hr
  have key : p.safety_stock ≤ r.end_soh := by
    by_cases hc : 0 < p.safety_stock - (r.beg_soh - req + r.incoming)
    · have h1 : r.shortage = p.safety_stock - (r.beg_soh - req + r.incoming) := by
        rw [hshort]
        exact max_eq_left (le_of_lt hc)
      have h2 : r.shortage ≤ (r.planned_order : ℚ) := by
        rw [hplan]
        exact le_trans (le_max_left _ _) (le_lotSize p.MOQ p.pack_size (h1 ▸ hc) hpack)
      rw [hend]
      linarith
    · push_neg at hc
      have h0 : r.shortage = 0 := by
        rw [hshort]
        exact max_eq_right (by linarith)
      have hp0 : r.planned_order = 0 := by
        rw [hplan, h0]
        exact lotSize_of_nonpos p.MOQ p.pack_size (lt_irrefl 0)
      rw [hend, hp0]
      push_cast
      linarith
  rw [hssr]
  exact ⟨key, le_trans hss key⟩

theorem claim_C10_witness :
    demoRow0.safety_stock ≤ demoRow0.end_soh ∧ 0 ≤ demoRow0.end_soh :=
  claim_C10_end_soh_above_safety [] "W1" "X" demoParams 5 10 [0, 7]
    (by with_unfolding_all decide) (by with_unfolding_all decide) demoRow0
    (by with_unfolding_all decide)
